import Mathlib

/-!
Verification of the block-production core of LayerXcom/lighthouse:
the `Slot`/`Epoch` time types (eth2/types/src/slot_epoch.rs) and the
`BlockProducer` poll state machine (eth2/block_producer/src/lib.rs).

Rust `u64` values are embedded as `Nat` together with explicit
saturation at `U64_MAX`, mirroring the source's exclusive use of
`saturating_add` / `saturating_sub` / `saturating_mul`.
-/

/-- `u64::max_value()`, that is `2 ^ 64 - 1`. -/
def U64_MAX : Nat := 18446744073709551615

/-- Rust `u64::saturating_add` on embedded values. -/
def satAdd (a b : Nat) : Nat := min (a + b) U64_MAX

/-- Rust `u64::saturating_sub`; `Nat` subtraction already truncates at zero. -/
def satSub (a b : Nat) : Nat := a - b

/-- Rust `u64::saturating_mul`. -/
def satMul (a b : Nat) : Nat := min (a * b) U64_MAX

/-- `pub struct Slot(u64)` from slot_epoch.rs. -/
structure Slot where
  val : Nat
deriving DecidableEq, Repr

/-- `pub struct Epoch(u64)` from slot_epoch.rs. -/
structure Epoch where
  val : Nat
deriving DecidableEq, Repr

/-- `impl Add<Slot> for Slot` (from `impl_math_between!(Slot, Slot)`):
`Slot::from(self.0.saturating_add(other.into()))`. -/
def Slot.add (a b : Slot) : Slot := ⟨satAdd a.val b.val⟩

/-- `impl Add<u64> for Slot` (from `impl_math_between!(Slot, u64)`). -/
def Slot.addU64 (a : Slot) (b : Nat) : Slot := ⟨satAdd a.val b⟩

/-- `impl Sub<Slot> for Slot`: `Slot::from(self.0.saturating_sub(other.into()))`. -/
def Slot.sub (a b : Slot) : Slot := ⟨satSub a.val b.val⟩

/-- `impl Sub<u64> for Slot`. -/
def Slot.subU64 (a : Slot) (b : Nat) : Slot := ⟨satSub a.val b⟩

/-- `impl Mul<Slot> for Slot`: `Slot::from(self.0.saturating_mul(rhs))`. -/
def Slot.mul (a b : Slot) : Slot := ⟨satMul a.val b.val⟩

/-- `impl Mul<u64> for Slot`. -/
def Slot.mulU64 (a : Slot) (b : Nat) : Slot := ⟨satMul a.val b⟩

/-- `Slot::saturating_sub` (from `impl_math!`): `*self - other.into()`,
where `-` is the saturating `Sub` above. -/
def Slot.saturating_sub (a b : Slot) : Slot := a.sub b

/-- `Slot::checked_div` (from `impl_math!`):
`if rhs == 0 { None } else { Some(*self / rhs) }`. -/
def Slot.checked_div (a b : Slot) : Option Slot :=
  if b.val = 0 then none else some ⟨a.val / b.val⟩

/-- `impl Add<Epoch> for Epoch` (from `impl_math_between!(Epoch, Epoch)`). -/
def Epoch.add (a b : Epoch) : Epoch := ⟨satAdd a.val b.val⟩

/-- `impl Add<u64> for Epoch`. -/
def Epoch.addU64 (a : Epoch) (b : Nat) : Epoch := ⟨satAdd a.val b⟩

/-- `impl Sub<Epoch> for Epoch`. -/
def Epoch.sub (a b : Epoch) : Epoch := ⟨satSub a.val b.val⟩

/-- `impl Sub<u64> for Epoch`. -/
def Epoch.subU64 (a : Epoch) (b : Nat) : Epoch := ⟨satSub a.val b⟩

/-- `impl Mul<Epoch> for Epoch`. -/
def Epoch.mul (a b : Epoch) : Epoch := ⟨satMul a.val b.val⟩

/-- `impl Mul<u64> for Epoch`. -/
def Epoch.mulU64 (a : Epoch) (b : Nat) : Epoch := ⟨satMul a.val b⟩

/-- `Epoch::saturating_sub`. -/
def Epoch.saturating_sub (a b : Epoch) : Epoch := a.sub b

/-- `Epoch::checked_div`. -/
def Epoch.checked_div (a b : Epoch) : Option Epoch :=
  if b.val = 0 then none else some ⟨a.val / b.val⟩

/-- `Slot::epoch`: `Epoch::from(self.0 / epoch_length)`. In the source the
`u64` division panics when `epoch_length == 0`; theorems only use it under
the hypothesis `0 < epoch_length`. -/
def Slot.epoch (s : Slot) (epoch_length : Nat) : Epoch :=
  ⟨s.val / epoch_length⟩

/-- `Epoch::start_slot`: `Slot::from(self.0.saturating_mul(epoch_length))`. -/
def Epoch.start_slot (e : Epoch) (epoch_length : Nat) : Slot :=
  ⟨satMul e.val epoch_length⟩

/-- `Epoch::end_slot`:
`Slot::from(self.0.saturating_add(1).saturating_mul(epoch_length).saturating_sub(1))`. -/
def Epoch.end_slot (e : Epoch) (epoch_length : Nat) : Slot :=
  ⟨satSub (satMul (satAdd e.val 1) epoch_length) 1⟩

/-- `pub struct SlotIter<'a>` from slot_epoch.rs (the borrowed epoch is
embedded by value). -/
structure SlotIter where
  current : Slot
  epoch : Epoch
  epoch_length : Nat
deriving DecidableEq, Repr

/-- `Epoch::slot_iter`: starts the iterator at `self.start_slot(epoch_length)`. -/
def Epoch.slot_iter (e : Epoch) (epoch_length : Nat) : SlotIter :=
  ⟨e.start_slot epoch_length, e, epoch_length⟩

/-- `impl Iterator for SlotIter`, `fn next`: stops (returns `None`) as soon
as `current` equals `epoch.end_slot(epoch_length)`, otherwise returns the
current slot and advances by one (saturating `+= 1`). -/
def SlotIter.next (it : SlotIter) : Option Slot × SlotIter :=
  if it.current = it.epoch.end_slot it.epoch_length then
    (none, it)
  else
    (some it.current, ⟨it.current.addU64 1, it.epoch, it.epoch_length⟩)

/-- Collect at most `fuel` items from the iterator, stopping at the first
`None`, as a Rust `collect()` would (the fuel only bounds the recursion). -/
def SlotIter.take (it : SlotIter) : Nat → List Slot
  | 0 => []
  | fuel + 1 =>
    match it.next with
    | (none, _) => []
    | (some s, it2) => s :: it2.take fuel

/-!
## BlockProducer (eth2/block_producer/src/lib.rs)

The collaborator traits (`SlotClock`, `DutiesReader`, `BeaconNode`,
`Signer`) live in traits.rs, which is not among the sources; following
spec §6 each call is given, as an explicit environment, the responses
those collaborators would return.
-/

/-- Opaque error surfaced by the `BeaconNode` collaborator. -/
structure BeaconNodeError where
  code : Nat
deriving DecidableEq, Repr

/-- Modelled from the spec: the candidate block structure (`BeaconBlock`)
is owned by the excluded serialization/type layer (§6); only its mutable
`signature` field is relevant to `sign_block`. -/
structure BeaconBlock where
  body : Nat
  signature : Nat
deriving DecidableEq, Repr

/-- Modelled from the spec: the publish outcome (valid/invalid) returned
by `BeaconNode::publish_beacon_block`; its value is never inspected. -/
structure PublishOutcome where
  out : Nat
deriving DecidableEq, Repr

/-- `enum PollOutcome` from lib.rs. -/
inductive PollOutcome
  | BlockProduced (slot : Nat)
  | SlashableBlockNotProduced (slot : Nat)
  | BlockProductionNotRequired (slot : Nat)
  | ProducerDutiesUnknown (slot : Nat)
  | SlotAlreadyProcessed (slot : Nat)
  | BeaconNodeUnableToProduceBlock (slot : Nat)
  | SignerRejection (slot : Nat)
  | ValidatorIsUnknown (slot : Nat)
deriving DecidableEq, Repr

/-- `enum Error` from lib.rs. -/
inductive Error
  | SlotClockError
  | SlotUnknowable
  | EpochMapPoisoned
  | SlotClockPoisoned
  | EpochLengthIsZero
  | BeaconNodeError (e : BeaconNodeError)
deriving DecidableEq, Repr

/-- Modelled from the spec: what `SlotClock::present_slot` returns —
a clock error, no resolvable slot, or the present slot. -/
inductive ClockResponse
  | clockError
  | unknowable
  | slot (s : Nat)
deriving DecidableEq, Repr

/-- Result of `DutiesReader::is_block_production_slot`: `Ok(bool)` or one
of the four `DutiesReaderError` variants matched in lib.rs. -/
inductive DutiesResponse
  | ok (b : Bool)
  | unknownEpoch
  | unknownValidator
  | epochLengthIsZero
  | poisoned
deriving DecidableEq, Repr

/-- Collaborator calls made during one `poll`, in order, plus a marker
recording each invocation of `produce_block`. -/
inductive Call
  | isBlockProductionSlot (slot : Nat)
  | produceBlockEntered (slot : Nat)
  | proposerNonce
  | signNonce
  | produceBeaconBlock (slot : Nat)
  | signBlockRoot
  | publishBlock
deriving DecidableEq, Repr

/-- Modelled from the spec: the responses the `BeaconNode` and `Signer`
collaborators give to the calls `produce_block` makes, plus the safety
predicate. In the source `safe_to_produce` is stubbed to always return
`true` (`safe_to_produce_stub` below); spec §9 specifies it as a pluggable
capability, so it is carried as part of the environment. -/
structure ProduceEnv where
  proposer_nonce : Except BeaconNodeError Nat
  sign_nonce : Option Nat
  produce_beacon_block : Except BeaconNodeError (Option BeaconBlock)
  safe_to_produce : BeaconBlock → Bool
  sign_block_sig : BeaconBlock → Option Nat
  publish_beacon_block : BeaconBlock → Except BeaconNodeError PublishOutcome

/-- The in-repo stub `BlockProducer::safe_to_produce`, which always
returns `true` ("presently stubbed-out. It provides ZERO SAFETY"). -/
def safe_to_produce_stub (_block : BeaconBlock) : Bool := true

/-- `BlockProducer::sign_block`: `store_produce` is a no-op stub, then the
signer signs the block's proposal root; on refusal the result is `None`,
otherwise the block with its `signature` field set. -/
def sign_block (env : ProduceEnv) (block : BeaconBlock) : Option BeaconBlock :=
  match env.sign_block_sig block with
  | none => none
  | some s => some ⟨block.body, s⟩

/-- `BlockProducer::produce_block`, returning the poll result together
with the list of collaborator calls made. -/
def produce_block (env : ProduceEnv) (slot : Nat) :
    Except Error PollOutcome × List Call :=
  match env.proposer_nonce with
  | .error e => (.error (.BeaconNodeError e), [.proposerNonce])
  | .ok _nonce =>
    match env.sign_nonce with
    | none => (.ok (.SignerRejection slot), [.proposerNonce, .signNonce])
    | some _randao_reveal =>
      match env.produce_beacon_block with
      | .error e =>
        (.error (.BeaconNodeError e),
          [.proposerNonce, .signNonce, .produceBeaconBlock slot])
      | .ok none =>
        (.ok (.BeaconNodeUnableToProduceBlock slot),
          [.proposerNonce, .signNonce, .produceBeaconBlock slot])
      | .ok (some block) =>
        if env.safe_to_produce block then
          match sign_block env block with
          | none =>
            (.ok (.SignerRejection slot),
              [.proposerNonce, .signNonce, .produceBeaconBlock slot,
                .signBlockRoot])
          | some signed =>
            match env.publish_beacon_block signed with
            | .error e =>
              (.error (.BeaconNodeError e),
                [.proposerNonce, .signNonce, .produceBeaconBlock slot,
                  .signBlockRoot, .publishBlock])
            | .ok _ =>
              (.ok (.BlockProduced slot),
                [.proposerNonce, .signNonce, .produceBeaconBlock slot,
                  .signBlockRoot, .publishBlock])
        else
          (.ok (.SlashableBlockNotProduced slot),
            [.proposerNonce, .signNonce, .produceBeaconBlock slot])

/-- The collaborator responses one `poll` call observes. -/
structure PollEnv where
  present_slot : ClockResponse
  duties : DutiesResponse
  prod : ProduceEnv

/-- Result of one `poll`: the returned value, the `last_processed_slot`
field after the call, and the collaborator calls made (beyond the clock
read, which is `poll`'s input). -/
structure PollResult where
  result : Except Error PollOutcome
  state : Option Nat
  calls : List Call

/-- `BlockProducer::is_processed_slot`:
`Some(processed_slot) if processed_slot >= slot => true`, else `false`. -/
def is_processed_slot (last_processed_slot : Option Nat) (slot : Nat) : Bool :=
  match last_processed_slot with
  | some processed_slot => decide (slot ≤ processed_slot)
  | none => false

/-- `BlockProducer::new` sets `last_processed_slot: None` (its doc comment
speaks of `last_processed_slot == 0`, but the field is an `Option` and is
initialised to `None`). -/
def initial_last_processed_slot : Option Nat := none

/-- `BlockProducer::poll` over the `last_processed_slot` state. On the
production branch the source sets `self.last_processed_slot = Some(slot)`
before calling `produce_block`. -/
def poll (last_processed_slot : Option Nat) (env : PollEnv) : PollResult :=
  match env.present_slot with
  | .clockError => ⟨.error .SlotClockError, last_processed_slot, []⟩
  | .unknowable => ⟨.error .SlotUnknowable, last_processed_slot, []⟩
  | .slot slot =>
    if !is_processed_slot last_processed_slot slot then
      match env.duties with
      | .unknownEpoch =>
        ⟨.ok (.ProducerDutiesUnknown slot), last_processed_slot,
          [.isBlockProductionSlot slot]⟩
      | .unknownValidator =>
        ⟨.ok (.ValidatorIsUnknown slot), last_processed_slot,
          [.isBlockProductionSlot slot]⟩
      | .epochLengthIsZero =>
        ⟨.error .EpochLengthIsZero, last_processed_slot,
          [.isBlockProductionSlot slot]⟩
      | .poisoned =>
        ⟨.error .EpochMapPoisoned, last_processed_slot,
          [.isBlockProductionSlot slot]⟩
      | .ok is_block_production_slot =>
        if is_block_production_slot then
          ⟨(produce_block env.prod slot).1, some slot,
            .isBlockProductionSlot slot :: .produceBlockEntered slot ::
              (produce_block env.prod slot).2⟩
        else
          ⟨.ok (.BlockProductionNotRequired slot), last_processed_slot,
            [.isBlockProductionSlot slot]⟩
    else
      ⟨.ok (.SlotAlreadyProcessed slot), last_processed_slot, []⟩

/-- Iterate `poll` over a list of per-call collaborator responses,
returning the final `last_processed_slot`. -/
def pollRun (last_processed_slot : Option Nat) : List PollEnv → Option Nat
  | [] => last_processed_slot
  | env :: envs => pollRun (poll last_processed_slot env).state envs

/-- Extracts the `produce_block` invocation markers from a trace entry. -/
def produceMarker : Call → Option Nat
  | .produceBlockEntered s => some s
  | _ => none

/-- Slots at which one `poll` call invoked `produce_block`. -/
def pollProduced (last_processed_slot : Option Nat) (env : PollEnv) : List Nat :=
  (poll last_processed_slot env).calls.filterMap produceMarker

/-- Slots at which `produce_block` was invoked across a sequence of polls. -/
def producedSlots (last_processed_slot : Option Nat) : List PollEnv → List Nat
  | [] => []
  | env :: envs =>
    pollProduced last_processed_slot env ++
      producedSlots (poll last_processed_slot env).state envs

/-- Order on `last_processed_slot` values: `none` is below everything, and
a slot that has been set may never be lost or decreased. -/
def optSlotLe : Option Nat → Option Nat → Prop
  | none, _ => True
  | some a, some b => a ≤ b
  | some _, none => False

/-- The `poll` results that can only arise after the production branch has
marked the slot: the outcomes of `produce_block`, or a propagated
beacon-node error. -/
def marksSlot (r : Except Error PollOutcome) (s : Nat) : Prop :=
  r = .ok (.BlockProduced s) ∨ r = .ok (.SignerRejection s) ∨
  r = .ok (.SlashableBlockNotProduced s) ∨
  r = .ok (.BeaconNodeUnableToProduceBlock s) ∨
  ∃ e, r = .error (.BeaconNodeError e)

/-- A concrete collaborator environment whose signer refuses the RANDAO
signature; used by counterexamples and witnesses. -/
def prodEnvNoSign : ProduceEnv :=
  ⟨.ok 0, none, .ok none, safe_to_produce_stub, fun _ => none,
    fun _ => .ok ⟨0⟩⟩

/-!
## Helper lemmas
-/

theorem produce_block_no_marker (env : ProduceEnv) (slot : Nat) :
    (produce_block env slot).2.filterMap produceMarker = [] := by
  rcases h1 : env.proposer_nonce with e | n
  · simp [produce_block, h1, produceMarker]
  rcases h2 : env.sign_nonce with _ | r
  · simp [produce_block, h1, h2, produceMarker]
  rcases h3 : env.produce_beacon_block with e2 | ob
  · simp [produce_block, h1, h2, h3, produceMarker]
  rcases ob with _ | block
  · simp [produce_block, h1, h2, h3, produceMarker]
  by_cases h4 : env.safe_to_produce block = true
  · rcases h5 : sign_block env block with _ | signed
    · simp [produce_block, h1, h2, h3, h4, h5, produceMarker]
    rcases h6 : env.publish_beacon_block signed with e3 | p
    · simp [produce_block, h1, h2, h3, h4, h5, h6, produceMarker]
    · simp [produce_block, h1, h2, h3, h4, h5, h6, produceMarker]
  · simp [produce_block, h1, h2, h3, h4, produceMarker]

theorem produce_block_shapes (env : ProduceEnv) (slot : Nat) :
    (∃ e, (produce_block env slot).1 = .error (.BeaconNodeError e)) ∨
    (produce_block env slot).1 = .ok (.SignerRejection slot) ∨
    (produce_block env slot).1 = .ok (.BeaconNodeUnableToProduceBlock slot) ∨
    (produce_block env slot).1 = .ok (.SlashableBlockNotProduced slot) ∨
    (produce_block env slot).1 = .ok (.BlockProduced slot) := by
  rcases h1 : env.proposer_nonce with e | n
  · exact Or.inl ⟨e, by simp [produce_block, h1]⟩
  rcases h2 : env.sign_nonce with _ | r
  · exact Or.inr (Or.inl (by simp [produce_block, h1, h2]))
  rcases h3 : env.produce_beacon_block with e2 | ob
  · exact Or.inl ⟨e2, by simp [produce_block, h1, h2, h3]⟩
  rcases ob with _ | block
  · exact Or.inr (Or.inr (Or.inl (by simp [produce_block, h1, h2, h3])))
  by_cases h4 : env.safe_to_produce block = true
  · rcases h5 : sign_block env block with _ | signed
    · exact Or.inr (Or.inl (by simp [produce_block, h1, h2, h3, h4, h5]))
    rcases h6 : env.publish_beacon_block signed with e3 | p
    · exact Or.inl ⟨e3, by simp [produce_block, h1, h2, h3, h4, h5, h6]⟩
    · exact Or.inr (Or.inr (Or.inr (Or.inr
        (by simp [produce_block, h1, h2, h3, h4, h5, h6]))))
  · exact Or.inr (Or.inr (Or.inr (Or.inl
      (by simp [produce_block, h1, h2, h3, h4]))))

theorem poll_step_cases (last : Option Nat) (env : PollEnv) :
    ((poll last env).state = last ∧ pollProduced last env = []) ∨
    (∃ s, env.present_slot = .slot s ∧ is_processed_slot last s = false ∧
      (poll last env).state = some s ∧ pollProduced last env = [s]) := by
  rcases hc : env.present_slot with _ | _ | s
  · left; simp [poll, pollProduced, hc]
  · left; simp [poll, pollProduced, hc]
  by_cases hp : is_processed_slot last s = true
  · left; simp [poll, pollProduced, hc, hp]
  rcases hd : env.duties with b | _ | _ | _ | _
  · rcases b with _ | _
    · left; simp [poll, pollProduced, hc, hp, hd, produceMarker]
    · right
      refine ⟨s, rfl, by simpa using hp, by simp [poll, hc, hp, hd], ?_⟩
      simp [pollProduced, poll, hc, hp, hd, produceMarker,
        produce_block_no_marker]
  all_goals left; simp [poll, pollProduced, hc, hp, hd, produceMarker]

theorem poll_state_mono (last : Option Nat) (env : PollEnv) :
    optSlotLe last (poll last env).state := by
  rcases poll_step_cases last env with ⟨hst, _⟩ | ⟨s, _, hns, hst, _⟩
  · rw [hst]; cases last <;> simp [optSlotLe]
  · rw [hst]
    cases last with
    | none => trivial
    | some l =>
      simp [is_processed_slot] at hns
      simp [optSlotLe]
      omega

theorem optSlotLe_trans {a b c : Option Nat}
    (h1 : optSlotLe a b) (h2 : optSlotLe b c) : optSlotLe a c := by
  cases a <;> cases b <;> cases c <;> simp [optSlotLe] at *
  omega

theorem pollRun_mono (last : Option Nat) (envs : List PollEnv) :
    optSlotLe last (pollRun last envs) := by
  induction envs generalizing last with
  | nil => cases last <;> simp [pollRun, optSlotLe]
  | cons env envs ih =>
    exact optSlotLe_trans (poll_state_mono last env) (ih _)

theorem producedSlots_pairwise (envs : List PollEnv) :
    ∀ last : Option Nat,
      List.Pairwise (· < ·) (producedSlots last envs) ∧
      (∀ x ∈ producedSlots last envs, is_processed_slot last x = false) := by
  induction envs with
  | nil => intro last; simp [producedSlots]
  | cons env envs ih =>
    intro last
    rcases poll_step_cases last env with ⟨hst, hpr⟩ | ⟨s, _, hns, hst, hpr⟩
    · constructor
      · simpa [producedSlots, hpr, hst] using (ih last).1
      · intro x hx
        simp only [producedSlots, hpr, hst, List.nil_append] at hx
        exact (ih last).2 x hx
    · constructor
      · simp only [producedSlots, hpr, hst, List.singleton_append]
        refine List.pairwise_cons.mpr ⟨?_, (ih (some s)).1⟩
        intro x hx
        have hxs := (ih (some s)).2 x hx
        simp [is_processed_slot] at hxs
        omega
      · intro x hx
        simp only [producedSlots, hpr, hst, List.singleton_append,
          List.mem_cons] at hx
        rcases hx with rfl | hx
        · exact hns
        · have hxs := (ih (some s)).2 x hx
          simp [is_processed_slot] at hxs hns ⊢
          cases last with
          | none => simp [is_processed_slot]
          | some l =>
            simp [is_processed_slot] at hns ⊢
            omega

theorem marksSlot_state (last : Option Nat) (env : PollEnv) (s : Nat)
    (hc : env.present_slot = .slot s)
    (hm : marksSlot (poll last env).result s) :
    (poll last env).state = some s := by
  by_cases hp : is_processed_slot last s = true
  · exfalso
    simp [poll, hc, hp, marksSlot] at hm
  rcases hd : env.duties with b | _ | _ | _ | _
  · rcases b with _ | _
    · exfalso; simp [poll, hc, hp, hd, marksSlot] at hm
    · simp [poll, hc, hp, hd]
  all_goals exfalso; simp [poll, hc, hp, hd, marksSlot] at hm

/-!
## Claim theorems
-/

/-- Claim C8: all `Slot`/`Epoch` addition, subtraction and multiplication
(same-type or `u64` operand) saturate at the `u64` bounds and never wrap:
results stay `≤ U64_MAX`, agree with exact arithmetic when no overflow
occurs, clamp to `U64_MAX` on overflow, `a + U64_MAX = U64_MAX`,
`0 - 1 = 0`, `saturating_sub` never goes below zero, and `checked_div`
returns `none` exactly on a zero divisor and the exact quotient otherwise. -/
theorem slot_epoch_arith_saturates :
    (∀ a b : Slot,
      (a.add b).val ≤ U64_MAX ∧ (a.addU64 b.val).val ≤ U64_MAX ∧
      (a.mul b).val ≤ U64_MAX ∧ (a.mulU64 b.val).val ≤ U64_MAX ∧
      (a.val + b.val ≤ U64_MAX → (a.add b).val = a.val + b.val) ∧
      (U64_MAX ≤ a.val + b.val → (a.add b).val = U64_MAX) ∧
      (a.val * b.val ≤ U64_MAX → (a.mul b).val = a.val * b.val) ∧
      (U64_MAX ≤ a.val * b.val → (a.mul b).val = U64_MAX) ∧
      a.addU64 U64_MAX = ⟨U64_MAX⟩ ∧ a.add ⟨U64_MAX⟩ = ⟨U64_MAX⟩ ∧
      (a.sub b).val = a.val - b.val ∧
      (b.val ≤ a.val → (a.saturating_sub b).val = a.val - b.val) ∧
      (a.val ≤ b.val → (a.saturating_sub b).val = 0) ∧
      (b.val = 0 → a.checked_div b = none) ∧
      (b.val ≠ 0 → a.checked_div b = some ⟨a.val / b.val⟩)) ∧
    (∀ a b : Epoch,
      (a.add b).val ≤ U64_MAX ∧ (a.addU64 b.val).val ≤ U64_MAX ∧
      (a.mul b).val ≤ U64_MAX ∧ (a.mulU64 b.val).val ≤ U64_MAX ∧
      (a.val + b.val ≤ U64_MAX → (a.add b).val = a.val + b.val) ∧
      (U64_MAX ≤ a.val + b.val → (a.add b).val = U64_MAX) ∧
      (a.val * b.val ≤ U64_MAX → (a.mul b).val = a.val * b.val) ∧
      (U64_MAX ≤ a.val * b.val → (a.mul b).val = U64_MAX) ∧
      a.addU64 U64_MAX = ⟨U64_MAX⟩ ∧ a.add ⟨U64_MAX⟩ = ⟨U64_MAX⟩ ∧
      (a.sub b).val = a.val - b.val ∧
      (b.val ≤ a.val → (a.saturating_sub b).val = a.val - b.val) ∧
      (a.val ≤ b.val → (a.saturating_sub b).val = 0) ∧
      (b.val = 0 → a.checked_div b = none) ∧
      (b.val ≠ 0 → a.checked_div b = some ⟨a.val / b.val⟩)) ∧
    Slot.subU64 ⟨0⟩ 1 = ⟨0⟩ ∧ Epoch.subU64 ⟨0⟩ 1 = ⟨0⟩ := by
  refine ⟨fun a b => ?_, fun a b => ?_, rfl, rfl⟩ <;>
    refine ⟨?_, ?_, ?_, ?_, ?_, ?_, ?_, ?_, ?_, ?_, ?_, ?_, ?_, ?_, ?_⟩ <;>
      simp [Slot.add, Slot.addU64, Slot.mul, Slot.mulU64, Slot.sub,
        Slot.saturating_sub, Slot.checked_div,
        Epoch.add, Epoch.addU64, Epoch.mul, Epoch.mulU64, Epoch.sub,
        Epoch.saturating_sub, Epoch.checked_div,
        satAdd, satSub, satMul] <;>
      omega

/-- Witness for C8: the conditional clauses at concrete inputs. -/
theorem slot_epoch_arith_saturates_witness :
    (Slot.add ⟨3⟩ ⟨4⟩).val = 7 ∧ (Epoch.mul ⟨3⟩ ⟨4⟩).val = 12 ∧
    Slot.checked_div ⟨7⟩ ⟨0⟩ = none ∧
    Epoch.checked_div ⟨7⟩ ⟨2⟩ = some ⟨3⟩ := by
  refine ⟨?_, ?_, ?_, ?_⟩
  · exact (slot_epoch_arith_saturates.1 ⟨3⟩ ⟨4⟩).2.2.2.2.1 (by decide)
  · exact (slot_epoch_arith_saturates.2.1 ⟨3⟩ ⟨4⟩).2.2.2.2.2.2.1 (by decide)
  · exact (slot_epoch_arith_saturates.1 ⟨7⟩ ⟨0⟩).2.2.2.2.2.2.2.2.2.2.2.2.2.1 rfl
  · exact (slot_epoch_arith_saturates.2.1 ⟨7⟩ ⟨2⟩).2.2.2.2.2.2.2.2.2.2.2.2.2.2
      (by decide)

/-- Counterexample for C9 as stated: at `Epoch (2^63)` with
`epoch_length = 4` the product `E * L = 2^65` exceeds `u64::MAX`, and
`start_slot` saturates to `U64_MAX` instead of equalling `E * L`. -/
theorem start_slot_saturates_counterexample :
    ((Epoch.mk 9223372036854775808).start_slot 4).val ≠
      9223372036854775808 * 4 := by
  decide

/-- Claim C9 (amended): for `0 < L`, `s.epoch L` is exact floor division
for every slot; and whenever `(E+1)*L` fits in a `u64` (so no saturation
occurs), `E.start_slot L = E*L` and `E.end_slot L = (E+1)*L - 1` exactly. -/
theorem epoch_slot_boundary_laws (s : Slot) (e : Epoch) (L : Nat)
    (hL : 0 < L) (hfit : (e.val + 1) * L ≤ U64_MAX) :
    (s.epoch L).val = s.val / L ∧
    (e.start_slot L).val = e.val * L ∧
    (e.end_slot L).val = (e.val + 1) * L - 1 := by
  have h1 : e.val + 1 ≤ U64_MAX := by
    calc e.val + 1 ≤ (e.val + 1) * L := Nat.le_mul_of_pos_right _ hL
    _ ≤ U64_MAX := hfit
  have hstart : e.val * L ≤ U64_MAX :=
    le_trans (Nat.mul_le_mul_right L (Nat.le_succ _)) hfit
  refine ⟨rfl, ?_, ?_⟩
  · simp [Epoch.start_slot, satMul, Nat.min_eq_left hstart]
  · simp [Epoch.end_slot, satAdd, satMul, satSub, Nat.min_eq_left h1,
      Nat.min_eq_left hfit]

/-- Witness for C9 (amended): epoch 3, epoch_length 4, slot 7. -/
theorem epoch_slot_boundary_laws_witness :
    ((Slot.mk 7).epoch 4).val = 1 ∧
    ((Epoch.mk 3).start_slot 4).val = 12 ∧
    ((Epoch.mk 3).end_slot 4).val = 15 := by
  have h := epoch_slot_boundary_laws ⟨7⟩ ⟨3⟩ 4 (by decide) (by decide)
  exact ⟨h.1, h.2.1, h.2.2⟩

/-- Claim C1 (code bug): `slot_iter` never yields the epoch's `end_slot`.
For epoch 0 with `epoch_length = 2` the iterator yields only slot 0 —
one slot, not the two slots `[0, 1]` from `start_slot` to `end_slot`
inclusive that the claim requires. -/
theorem slot_iter_omits_end_slot_at_epoch0_len2 :
    ((Epoch.mk 0).slot_iter 2).take 10 = [Slot.mk 0] ∧
    ((Epoch.mk 0).slot_iter 2).take 10 ≠ [Slot.mk 0, Slot.mk 1] := by
  refine ⟨?_, ?_⟩ <;> decide

/-- Claim C2: across any sequence of `poll` calls on a producer started
from `new()`, `produce_block` is invoked at most once per slot value (the
invoked slots are pairwise distinct); and whenever a poll invokes
`produce_block` at slot `s`, `last_processed_slot` has been set to
`Some s` by the end of that call, whatever `produce_block` returned. -/
theorem produce_block_at_most_once_per_slot (envs : List PollEnv) :
    (producedSlots initial_last_processed_slot envs).Nodup ∧
    (∀ last env s, Call.produceBlockEntered s ∈ (poll last env).calls →
      (poll last env).state = some s) := by
  constructor
  · exact ((producedSlots_pairwise envs) initial_last_processed_slot).1.imp
      (fun hab => Nat.ne_of_lt hab)
  · intro last env s hmem
    have hs : s ∈ pollProduced last env :=
      List.mem_filterMap.mpr ⟨Call.produceBlockEntered s, hmem, rfl⟩
    rcases poll_step_cases last env with ⟨_, hpr⟩ | ⟨t, _, _, hst, hpr⟩
    · rw [hpr] at hs; simp at hs
    · rw [hpr] at hs
      simp at hs
      rw [hs]
      exact hst

/-- Witness for C2: the implication in the second conjunct at a concrete
poll that invokes `produce_block` at slot 5. -/
theorem produce_block_at_most_once_per_slot_witness :
    (poll none ⟨.slot 5, .ok true, prodEnvNoSign⟩).state = some 5 :=
  (produce_block_at_most_once_per_slot []).2 none
    ⟨.slot 5, .ok true, prodEnvNoSign⟩ 5 (by decide)

/-- Counterexample for C3 as stated: `BlockProductionNotRequired(5)` is a
terminal outcome of `poll` for slot 5, yet the next poll observing slot
5 again returns `BlockProductionNotRequired(5)`, not
`SlotAlreadyProcessed(5)` — the slot was never marked processed. -/
theorem not_required_outcome_does_not_mark_slot :
    (poll none ⟨.slot 5, .ok false, prodEnvNoSign⟩).result =
      .ok (.BlockProductionNotRequired 5) ∧
    (poll (poll none ⟨.slot 5, .ok false, prodEnvNoSign⟩).state
        ⟨.slot 5, .ok false, prodEnvNoSign⟩).result ≠
      .ok (.SlotAlreadyProcessed 5) ∧
    (poll (poll none ⟨.slot 5, .ok false, prodEnvNoSign⟩).state
        ⟨.slot 5, .ok false, prodEnvNoSign⟩).result =
      .ok (.BlockProductionNotRequired 5) := by
  refine ⟨rfl, ?_, rfl⟩
  show Except.ok (PollOutcome.BlockProductionNotRequired 5) ≠
    Except.ok (PollOutcome.SlotAlreadyProcessed 5)
  simp

/-- Claim C3 (amended): once `poll` has run the production pipeline for
slot `s` — returning `BlockProduced(s)`, `SignerRejection(s)`,
`SlashableBlockNotProduced(s)`, `BeaconNodeUnableToProduceBlock(s)`, or
`Err(BeaconNodeError)` — every subsequent `poll`, after any further
sequence of polls, that observes a current slot `s_now ≤ s` returns
`Ok(SlotAlreadyProcessed(s_now))`. -/
theorem production_outcomes_mark_slot_already_processed
    (last : Option Nat) (env : PollEnv) (s : Nat)
    (hc : env.present_slot = .slot s)
    (hm : marksSlot (poll last env).result s)
    (envs : List PollEnv) (env2 : PollEnv) (s_now : Nat)
    (hc2 : env2.present_slot = .slot s_now) (hle : s_now ≤ s) :
    (poll (pollRun (poll last env).state envs) env2).result =
      .ok (.SlotAlreadyProcessed s_now) := by
  have h1 : (poll last env).state = some s := marksSlot_state last env s hc hm
  have h2 := pollRun_mono (poll last env).state envs
  rw [h1] at h2 ⊢
  rcases hrun : pollRun (some s) envs with _ | l
  · rw [hrun] at h2; simp [optSlotLe] at h2
  · rw [hrun] at h2
    have hl : s ≤ l := by simpa [optSlotLe] using h2
    have hp : is_processed_slot (some l) s_now = true := by
      simp [is_processed_slot]; omega
    simp [poll, hc2, hp]

/-- Witness for C3 (amended): a signer-rejected production at slot 5
forces `SlotAlreadyProcessed(3)` on a later poll observing slot 3. -/
theorem production_outcomes_mark_slot_already_processed_witness :
    (poll (pollRun (poll none ⟨.slot 5, .ok true, prodEnvNoSign⟩).state [])
        ⟨.slot 3, .ok false, prodEnvNoSign⟩).result =
      .ok (.SlotAlreadyProcessed 3) :=
  production_outcomes_mark_slot_already_processed none
    ⟨.slot 5, .ok true, prodEnvNoSign⟩ 5 rfl (Or.inr (Or.inl rfl))
    [] ⟨.slot 3, .ok false, prodEnvNoSign⟩ 3 rfl (by decide)

/-- Claim C4: `last_processed_slot` is monotone — after any single `poll`
and after any sequence of polls it is `≥` its previous value in the order
where `none` is the bottom and a set slot can never be unset or lowered. -/
theorem last_processed_slot_monotone (last : Option Nat) :
    (∀ env, optSlotLe last (poll last env).state) ∧
    (∀ envs, optSlotLe last (pollRun last envs)) :=
  ⟨fun env => poll_state_mono last env, fun envs => pollRun_mono last envs⟩

/-- Claim C5: when the clock resolves slot `s` and `last_processed_slot`
is already `≥ s`, `poll` returns `Ok(SlotAlreadyProcessed(s))`, changes no
state, and makes no collaborator call beyond the clock read. -/
theorem already_processed_is_pure (last : Option Nat) (env : PollEnv)
    (s : Nat) (hc : env.present_slot = .slot s)
    (hp : is_processed_slot last s = true) :
    (poll last env).result = .ok (.SlotAlreadyProcessed s) ∧
    (poll last env).state = last ∧ (poll last env).calls = [] := by
  simp [poll, hc, hp]

/-- Witness for C5: `last_processed_slot = Some 7`, current slot 3. -/
theorem already_processed_is_pure_witness :
    (poll (some 7) ⟨.slot 3, .ok true, prodEnvNoSign⟩).result =
      .ok (.SlotAlreadyProcessed 3) ∧
    (poll (some 7) ⟨.slot 3, .ok true, prodEnvNoSign⟩).state = some 7 ∧
    (poll (some 7) ⟨.slot 3, .ok true, prodEnvNoSign⟩).calls = [] :=
  already_processed_is_pure (some 7) ⟨.slot 3, .ok true, prodEnvNoSign⟩ 3
    rfl (by decide)

/-- Claim C6: `produce_block` classifies its result — signer refusal at
either signing step gives `SignerRejection(slot)`; a `None` candidate
gives `BeaconNodeUnableToProduceBlock(slot)`; a rejecting safety
predicate gives `SlashableBlockNotProduced(slot)` without signing or
publication; any beacon-node error propagates as `Err(BeaconNodeError)`;
and `BlockProduced(slot)` arises exactly from a safe, signed, published
block. -/
theorem produce_block_outcome_classification (env : ProduceEnv) (slot : Nat) :
    (∀ n, env.proposer_nonce = .ok n → env.sign_nonce = none →
      (produce_block env slot).1 = .ok (.SignerRejection slot)) ∧
    (∀ n r b, env.proposer_nonce = .ok n → env.sign_nonce = some r →
      env.produce_beacon_block = .ok (some b) →
      env.safe_to_produce b = true → env.sign_block_sig b = none →
      (produce_block env slot).1 = .ok (.SignerRejection slot)) ∧
    (∀ n r, env.proposer_nonce = .ok n → env.sign_nonce = some r →
      env.produce_beacon_block = .ok none →
      (produce_block env slot).1 = .ok (.BeaconNodeUnableToProduceBlock slot)) ∧
    (∀ n r b, env.proposer_nonce = .ok n → env.sign_nonce = some r →
      env.produce_beacon_block = .ok (some b) →
      env.safe_to_produce b = false →
      (produce_block env slot).1 = .ok (.SlashableBlockNotProduced slot) ∧
      Call.signBlockRoot ∉ (produce_block env slot).2 ∧
      Call.publishBlock ∉ (produce_block env slot).2) ∧
    (∀ e, env.proposer_nonce = .error e →
      (produce_block env slot).1 = .error (.BeaconNodeError e)) ∧
    (∀ n r e, env.proposer_nonce = .ok n → env.sign_nonce = some r →
      env.produce_beacon_block = .error e →
      (produce_block env slot).1 = .error (.BeaconNodeError e)) ∧
    (∀ n r b sg e, env.proposer_nonce = .ok n → env.sign_nonce = some r →
      env.produce_beacon_block = .ok (some b) →
      env.safe_to_produce b = true → env.sign_block_sig b = some sg →
      env.publish_beacon_block ⟨b.body, sg⟩ = .error e →
      (produce_block env slot).1 = .error (.BeaconNodeError e)) ∧
    ((produce_block env slot).1 = .ok (.BlockProduced slot) ↔
      ∃ n r b sg p, env.proposer_nonce = .ok n ∧ env.sign_nonce = some r ∧
        env.produce_beacon_block = .ok (some b) ∧
        env.safe_to_produce b = true ∧ env.sign_block_sig b = some sg ∧
        env.publish_beacon_block ⟨b.body, sg⟩ = .ok p) := by
  refine ⟨?_, ?_, ?_, ?_, ?_, ?_, ?_, ?_, ?_⟩
  · intro n h1 h2; simp [produce_block, h1, h2]
  · intro n r b h1 h2 h3 h4 h5
    simp [produce_block, sign_block, h1, h2, h3, h4, h5]
  · intro n r h1 h2 h3; simp [produce_block, h1, h2, h3]
  · intro n r b h1 h2 h3 h4
    refine ⟨?_, ?_, ?_⟩ <;> simp [produce_block, h1, h2, h3, h4]
  · intro e h1; simp [produce_block, h1]
  · intro n r e h1 h2 h3; simp [produce_block, h1, h2, h3]
  · intro n r b sg e h1 h2 h3 h4 h5 h6
    simp [produce_block, sign_block, h1, h2, h3, h4, h5, h6]
  · intro h
    rcases h1 : env.proposer_nonce with e | n
    · simp [produce_block, h1] at h
    rcases h2 : env.sign_nonce with _ | r
    · simp [produce_block, h1, h2] at h
    rcases h3 : env.produce_beacon_block with e | ob
    · simp [produce_block, h1, h2, h3] at h
    rcases ob with _ | b
    · simp [produce_block, h1, h2, h3] at h
    by_cases h4 : env.safe_to_produce b = true
    · rcases h5 : env.sign_block_sig b with _ | sg
      · simp [produce_block, sign_block, h1, h2, h3, h4, h5] at h
      rcases h6 : env.publish_beacon_block ⟨b.body, sg⟩ with e | p
      · simp [produce_block, sign_block, h1, h2, h3, h4, h5, h6] at h
      · exact ⟨n, r, b, sg, p, rfl, rfl, rfl, h4, h5, h6⟩
    · simp [produce_block, h1, h2, h3, h4] at h
  · rintro ⟨n, r, b, sg, p, h1, h2, h3, h4, h5, h6⟩
    simp [produce_block, sign_block, h1, h2, h3, h4, h5, h6]

/-- Witness for C6: the first clause at the concrete refusing-signer
environment. -/
theorem produce_block_outcome_classification_witness :
    (produce_block prodEnvNoSign 9).1 = .ok (.SignerRejection 9) :=
  (produce_block_outcome_classification prodEnvNoSign 9).1 0 rfl rfl

/-- Claim C7: `poll` fails with `SlotClockError` exactly when the clock
errors and `SlotUnknowable` exactly when the clock returns no slot; when
the duties reader is consulted its results map to
`Err(EpochLengthIsZero)`, `Err(EpochMapPoisoned)`,
`Ok(ProducerDutiesUnknown)`, `Ok(ValidatorIsUnknown)` and
`Ok(BlockProductionNotRequired)` respectively. -/
theorem poll_error_and_duties_mapping (last : Option Nat) (env : PollEnv) :
    ((poll last env).result = .error .SlotClockError ↔
      env.present_slot = .clockError) ∧
    ((poll last env).result = .error .SlotUnknowable ↔
      env.present_slot = .unknowable) ∧
    (∀ s, env.present_slot = .slot s → is_processed_slot last s = false →
      (env.duties = .epochLengthIsZero →
        (poll last env).result = .error .EpochLengthIsZero) ∧
      (env.duties = .poisoned →
        (poll last env).result = .error .EpochMapPoisoned) ∧
      (env.duties = .unknownEpoch →
        (poll last env).result = .ok (.ProducerDutiesUnknown s)) ∧
      (env.duties = .unknownValidator →
        (poll last env).result = .ok (.ValidatorIsUnknown s)) ∧
      (env.duties = .ok false →
        (poll last env).result = .ok (.BlockProductionNotRequired s))) := by
  refine ⟨⟨?_, fun h => by simp [poll, h]⟩, ⟨?_, fun h => by simp [poll, h]⟩, ?_⟩
  · intro h
    rcases hc : env.present_slot with _ | _ | s
    · rfl
    · simp [poll, hc] at h
    · by_cases hp : is_processed_slot last s = true
      · simp [poll, hc, hp] at h
      · rcases hd : env.duties with b | _ | _ | _ | _
        · rcases b with _ | _
          · simp [poll, hc, hp, hd] at h
          · simp [poll, hc, hp, hd] at h
            rcases produce_block_shapes env.prod s with ⟨e, he⟩ | he | he | he | he <;>
              rw [he] at h <;> simp at h
        all_goals simp [poll, hc, hp, hd] at h
  · intro h
    rcases hc : env.present_slot with _ | _ | s
    · simp [poll, hc] at h
    · rfl
    · by_cases hp : is_processed_slot last s = true
      · simp [poll, hc, hp] at h
      · rcases hd : env.duties with b | _ | _ | _ | _
        · rcases b with _ | _
          · simp [poll, hc, hp, hd] at h
          · simp [poll, hc, hp, hd] at h
            rcases produce_block_shapes env.prod s with ⟨e, he⟩ | he | he | he | he <;>
              rw [he] at h <;> simp at h
        all_goals simp [poll, hc, hp, hd] at h
  · intro s hc hp
    exact ⟨fun hd => by simp [poll, hc, hp, hd],
      fun hd => by simp [poll, hc, hp, hd],
      fun hd => by simp [poll, hc, hp, hd],
      fun hd => by simp [poll, hc, hp, hd],
      fun hd => by simp [poll, hc, hp, hd]⟩

/-- Witness for C7: clock error and poisoned duties at concrete inputs. -/
theorem poll_error_and_duties_mapping_witness :
    (poll none ⟨.clockError, .ok false, prodEnvNoSign⟩).result =
      .error .SlotClockError ∧
    (poll none ⟨.slot 5, .poisoned, prodEnvNoSign⟩).result =
      .error .EpochMapPoisoned :=
  ⟨(poll_error_and_duties_mapping none
      ⟨.clockError, .ok false, prodEnvNoSign⟩).1.mpr rfl,
   ((poll_error_and_duties_mapping none
      ⟨.slot 5, .poisoned, prodEnvNoSign⟩).2.2 5 rfl rfl).2.1 rfl⟩

/-- Claim C10: a producer from `new()` has `last_processed_slot = None`,
in that state no slot — slot 0 included — counts as processed, and the
very first poll can invoke `produce_block` at slot 0. -/
theorem new_producer_unprocessed_all_slots :
    initial_last_processed_slot = none ∧
    (∀ s, is_processed_slot initial_last_processed_slot s = false) ∧
    (∀ prod_env : ProduceEnv, Call.produceBlockEntered 0 ∈
      (poll initial_last_processed_slot ⟨.slot 0, .ok true, prod_env⟩).calls) := by
  refine ⟨rfl, fun s => rfl, fun prod_env => ?_⟩
  simp [poll, initial_last_processed_slot, is_processed_slot]
